import Mathlib

/-!
Verification development for the image-fraud service.

The embedded code is `app.py` (the HTTP endpoint `analyze_fraud`) and
`utils/fraud_utils.py` (the `ImageAnalyzer` facade: `validate_image`,
`process_web_detection`, `classify_image`, `analyze_exif`, `analyze`).

External libraries the code calls (the `base64` module, PIL's
`Image.open`/`verify`, `piexif.load`, and the two Google service clients)
are modeled as an explicit environment record `Env` of fallible functions;
the repository's own logic is translated line by line on top of it.
Python exceptions are modeled with `Except`; every exception the analyzer
raises is a `ValueError` in the source, which the `PyExc` projection
records together with the exact message the source formats.
-/

namespace ImageFraud

/-- Raw bytes (a Python `bytes` value) as a list of byte values. -/
abbrev ByteData := List Nat

/-- `VisionConfig` dataclass constants from `fraud_utils.py`. -/
def VisionConfig.PROJECT : String := "ck-vertex"

def VisionConfig.LOCATION : String := "us-central1"

def VisionConfig.ENDPOINT_ID : String := "6057421763162144768"

def VisionConfig.MAX_IMAGE_SIZE : Nat := 1500000

/-- One match record of the web-detection service; the code reads its `url`. -/
structure WebImage where
  url : String
deriving DecidableEq

/-- The `web_detection` field of the vision service's response: the lists of
full and partial matching images. -/
structure WebDetectionResponse where
  full_matching_images : List WebImage
  partial_matching_images : List WebImage
deriving DecidableEq

/-- The dict returned by `ImageAnalyzer.process_web_detection`. -/
structure WebResult where
  is_fraud : Bool
  matching_images_count : Nat
  full_matching_images : List String
  partial_matching_images : List String
deriving DecidableEq

/-- One normalized prediction record (`confidences`, `displayNames`, `ids`
converted to plain lists; the scalar payloads are opaque here). -/
structure PredictionRecord where
  confidences : List String
  displayNames : List String
  ids : List String
deriving DecidableEq

/-- The response of the Vertex prediction service, at the interface the code
consumes: model identifiers and the prediction records. -/
structure PredictResponse where
  deployed_model_id : String
  model_version_id : String
  model_display_name : String
  predictions : List PredictionRecord
deriving DecidableEq

/-- The dict returned by `ImageAnalyzer.classify_image`. -/
structure ClassificationResult where
  deployed_model_id : String
  model_version_id : String
  model_display_name : String
  predictions : List PredictionRecord
deriving DecidableEq

/-- The dict `piexif.load` returns, at the keys the code reads: the `0th`
IFD and the `Exif` IFD, each mapping integer tags to raw byte values. -/
structure ExifData where
  zeroth : List (Nat × ByteData)
  exifIFD : List (Nat × ByteData)
deriving DecidableEq

/-- `piexif.ImageIFD.Model` (tag 272). -/
def piexifImageIFD.Model : Nat := 272

/-- `piexif.ImageIFD.Software` (tag 305). -/
def piexifImageIFD.Software : Nat := 305

/-- `piexif.ExifIFD.DateTimeOriginal` (tag 36867). -/
def piexifExifIFD.DateTimeOriginal : Nat := 36867

/-- `piexif.ExifIFD.DateTimeDigitized` (tag 36868). -/
def piexifExifIFD.DateTimeDigitized : Nat := 36868

/-- A PIL image handle, at the interface `analyze_exif` consumes: the
optional raw EXIF block found in `pil_image.info` under the key `exif`. -/
structure PILImage where
  exifBytes : Option ByteData
deriving DecidableEq

/-- The external libraries and remote services the analyzer calls, each as a
fallible function: `base64.b64decode`, PIL's open/verify/reopen sequence,
the vision client's `web_detection`, the Vertex client's `predict`, and
`piexif.load`. A failure models the library raising an exception whose
string rendering is the carried message. -/
structure Env where
  b64decode : String → Except String ByteData
  imageOpenVerify : ByteData → Except String PILImage
  webDetection : ByteData → Except String WebDetectionResponse
  vertexPredict : String → Except String PredictResponse
  piexifLoad : ByteData → Except String ExifData

/-- The errors `ImageAnalyzer` raises, keyed by raise site. Every one of
them is a Python `ValueError`; `AErr.toPyExc` renders the exact message. -/
inductive AErr where
  | invalidPayload (msg : String)
  | payloadTooLarge (size : Nat)
  | invalidImageFormat (msg : String)
  | webDetectionFailed (msg : String)
  | classificationFailed (msg : String)
  | unsupportedAnalysisType (t : String)
deriving DecidableEq

/-- A Python exception as the endpoint handler observes it: whether it is a
`ValueError`, and its message. -/
structure PyExc where
  isValueError : Bool
  msg : String
deriving DecidableEq

/-- The exception each analyzer error surfaces as. All are raised with
`raise ValueError(...)` in `fraud_utils.py`; the three validation errors are
additionally re-wrapped by the outer handler of `validate_image` into
`"Invalid image data: ..."`. -/
def AErr.toPyExc : AErr → PyExc
  | .invalidPayload m => ⟨true, "Invalid image data: " ++ m⟩
  | .payloadTooLarge n =>
      ⟨true, "Invalid image data: Image size (" ++ toString n ++
        " bytes) exceeds maximum allowed size of " ++
        toString VisionConfig.MAX_IMAGE_SIZE ++ " bytes"⟩
  | .invalidImageFormat m => ⟨true, "Invalid image data: Invalid image format: " ++ m⟩
  | .webDetectionFailed m => ⟨true, "Web detection failed: " ++ m⟩
  | .classificationFailed m => ⟨true, "Classification failed: " ++ m⟩
  | .unsupportedAnalysisType t => ⟨true, "Invalid analysis type: " ++ t⟩

/-- Python `str.strip` whitespace: space, tab, newline, carriage return,
vertical tab, form feed. -/
def isPyWhitespace (c : Char) : Bool :=
  c = ' ' || c = '\t' || c = '\n' || c = '\r' || c = Char.ofNat 11 || c = Char.ofNat 12

/-- Python `str.strip()`: drop leading and trailing whitespace. -/
def pyStrip (s : String) : String :=
  ⟨((s.data.dropWhile isPyWhitespace).reverse.dropWhile isPyWhitespace).reverse⟩

/-- Python `s.replace(c, "")`: remove every occurrence of the character. -/
def removeChar (c : Char) (s : String) : String :=
  ⟨s.data.filter (fun d => d ≠ c)⟩

/-- The cleanup in `validate_image`:
`base64_string.replace('\n', '').replace('\r', '').strip()`. -/
def cleanedBase64 (s : String) : String :=
  pyStrip (removeChar '\r' (removeChar '\n' s))

/-- `ImageAnalyzer.validate_image`: clean the text, base64-decode it, check
the decoded size against `MAX_IMAGE_SIZE`, then parse and verify the image,
returning both the raw bytes and the PIL handle. A decode failure, an
oversized payload and an unparsable image each raise at their own site; the
outer `except` re-wraps all of them as `ValueError("Invalid image data: ...")`,
which `AErr.toPyExc` reproduces. -/
def validate_image (env : Env) (base64_string : String) :
    Except AErr (ByteData × PILImage) :=
  match env.b64decode (cleanedBase64 base64_string) with
  | .error e => .error (.invalidPayload e)
  | .ok image_data =>
    if image_data.length > VisionConfig.MAX_IMAGE_SIZE then
      .error (.payloadTooLarge image_data.length)
    else
      match env.imageOpenVerify image_data with
      | .error e => .error (.invalidImageFormat e)
      | .ok pil_image => .ok (image_data, pil_image)

/-- `ImageAnalyzer.process_web_detection`: submit the raw bytes, then
`is_fraud = bool(full_matching_images)`,
`matching_count = len(full_matching_images) if is_fraud else 0`, and the two
URL lists. Any failure of the remote call is re-raised as
`ValueError("Web detection failed: ...")`. -/
def process_web_detection (env : Env) (image_data : ByteData) :
    Except AErr WebResult :=
  match env.webDetection image_data with
  | .error e => .error (.webDetectionFailed e)
  | .ok web_detection =>
    let is_fraud : Bool := !web_detection.full_matching_images.isEmpty
    let matching_count : Nat :=
      if is_fraud then web_detection.full_matching_images.length else 0
    .ok ⟨is_fraud, matching_count,
      web_detection.full_matching_images.map WebImage.url,
      web_detection.partial_matching_images.map WebImage.url⟩

/-- `ImageAnalyzer.classify_image`: build the instance from the original
base64 text, call the Vertex endpoint, and normalize the response (model
identifiers plus prediction records with their repeated fields as plain
lists). Any failure is re-raised as `ValueError("Classification failed: ...")`. -/
def classify_image (env : Env) (encoded_content : String) :
    Except AErr ClassificationResult :=
  match env.vertexPredict encoded_content with
  | .error e => .error (.classificationFailed e)
  | .ok response =>
    .ok ⟨response.deployed_model_id, response.model_version_id,
      response.model_display_name, response.predictions⟩

/-- Python `ifd.get(tag, b'')` on an IFD dict. -/
def ifdGet (ifd : List (Nat × ByteData)) (tag : Nat) : ByteData :=
  match ifd.lookup tag with
  | some v => v
  | none => []

/-- Valid first continuation byte of a 3-byte UTF-8 sequence with lead `b`
(excludes overlong encodings and surrogates). -/
def utf8First3 (b c1 : Nat) : Bool :=
  if b = 224 then 160 ≤ c1 && c1 ≤ 191
  else if b = 237 then 128 ≤ c1 && c1 ≤ 159
  else 128 ≤ c1 && c1 ≤ 191

/-- Valid first continuation byte of a 4-byte UTF-8 sequence with lead `b`
(excludes overlong encodings and code points past U+10FFFF). -/
def utf8First4 (b c1 : Nat) : Bool :=
  if b = 240 then 144 ≤ c1 && c1 ≤ 191
  else if b = 244 then 128 ≤ c1 && c1 ≤ 143
  else 128 ≤ c1 && c1 ≤ 191

/-- UTF-8 decoding with the `ignore` error handler: an ill-formed sequence
is skipped (its maximal well-formed prefix is consumed) and decoding
continues. The fuel is an upper bound on the number of steps; every step
consumes at least one byte, so `length` suffices. -/
def utf8DecodeIgnoreAux : Nat → List Nat → List Char
  | 0, _ => []
  | _ + 1, [] => []
  | fuel + 1, b :: rest =>
    if b ≤ 127 then Char.ofNat b :: utf8DecodeIgnoreAux fuel rest
    else if b ≤ 193 then utf8DecodeIgnoreAux fuel rest
    else if b ≤ 223 then
      match rest with
      | [] => []
      | c1 :: rest2 =>
        if 128 ≤ c1 && c1 ≤ 191 then
          Char.ofNat ((b - 192) * 64 + (c1 - 128)) :: utf8DecodeIgnoreAux fuel rest2
        else utf8DecodeIgnoreAux fuel rest
    else if b ≤ 239 then
      match rest with
      | [] => []
      | c1 :: rest2 =>
        if utf8First3 b c1 then
          match rest2 with
          | [] => []
          | c2 :: rest3 =>
            if 128 ≤ c2 && c2 ≤ 191 then
              Char.ofNat ((b - 224) * 4096 + (c1 - 128) * 64 + (c2 - 128)) ::
                utf8DecodeIgnoreAux fuel rest3
            else utf8DecodeIgnoreAux fuel rest2
        else utf8DecodeIgnoreAux fuel rest
    else if b ≤ 244 then
      match rest with
      | [] => []
      | c1 :: rest2 =>
        if utf8First4 b c1 then
          match rest2 with
          | [] => []
          | c2 :: rest3 =>
            if 128 ≤ c2 && c2 ≤ 191 then
              match rest3 with
              | [] => []
              | c3 :: rest4 =>
                if 128 ≤ c3 && c3 ≤ 191 then
                  Char.ofNat ((b - 240) * 262144 + (c1 - 128) * 4096 +
                      (c2 - 128) * 64 + (c3 - 128)) ::
                    utf8DecodeIgnoreAux fuel rest4
                else utf8DecodeIgnoreAux fuel rest3
            else utf8DecodeIgnoreAux fuel rest2
        else utf8DecodeIgnoreAux fuel rest
    else utf8DecodeIgnoreAux fuel rest

/-- Python `bs.decode('utf-8', 'ignore')`. -/
def utf8DecodeIgnore (bs : ByteData) : String :=
  ⟨utf8DecodeIgnoreAux bs.length bs⟩

/-- The five-key dict `analyze_exif` builds on the success path. -/
structure ExifResult where
  camera_model : String
  software : String
  datetime_original : String
  datetime_digitized : String
  warnings : List String
deriving DecidableEq

/-- The two shapes `analyze_exif` can return: the five-key analysis dict, or
the in-band `{"error": msg}` dict. It never raises. -/
inductive ExifOutcome where
  | result (r : ExifResult)
  | errorResult (msg : String)
deriving DecidableEq

/-- `ImageAnalyzer.analyze_exif`: if the image carries no `exif` block,
return the all-empty result with the single no-EXIF warning; otherwise load
the block with `piexif.load`, decode the four tags as UTF-8 ignoring
undecodable bytes, and append the software warning and then the
timestamp-mismatch warning when their conditions hold. Any exception
(modeled: a `piexif.load` failure, the only fallible call in the body) is
caught and returned in-band as `{"error": "EXIF analysis failed: ..."}`. -/
def analyze_exif (env : Env) (pil_image : PILImage) : ExifOutcome :=
  match pil_image.exifBytes with
  | none => .result ⟨"", "", "", "", ["No EXIF data found in image"]⟩
  | some raw =>
    match env.piexifLoad raw with
    | .error e => .errorResult ("EXIF analysis failed: " ++ e)
    | .ok exif_data =>
      let camera_model := utf8DecodeIgnore (ifdGet exif_data.zeroth piexifImageIFD.Model)
      let software := utf8DecodeIgnore (ifdGet exif_data.zeroth piexifImageIFD.Software)
      let datetime_original :=
        utf8DecodeIgnore (ifdGet exif_data.exifIFD piexifExifIFD.DateTimeOriginal)
      let datetime_digitized :=
        utf8DecodeIgnore (ifdGet exif_data.exifIFD piexifExifIFD.DateTimeDigitized)
      let warnings : List String :=
        (if software ≠ "" then ["Image edited with software: " ++ software] else []) ++
        (if datetime_original ≠ "" ∧ datetime_digitized ≠ "" ∧
            datetime_original ≠ datetime_digitized then
          ["Original date and digitized date do not match."] else [])
      .result ⟨camera_model, software, datetime_original, datetime_digitized, warnings⟩

/-- The result `analyze` hands back: one of the three strategies' shapes. -/
inductive AnalysisResult where
  | web (r : WebResult)
  | classification (r : ClassificationResult)
  | exif (r : ExifOutcome)
deriving DecidableEq

/-- `ImageAnalyzer.analyze`: validate the payload first, then dispatch on
`analysis_type` to exactly one strategy (`web_search` on the decoded bytes,
`classification` on the original base64 text, `exif` on the PIL handle); an
`analysis_type` outside the dispatch table raises
`ValueError("Invalid analysis type: ...")`. The outer handler only logs and
re-raises, so every error propagates unchanged. -/
def analyze (env : Env) (base64_content : String) (analysis_type : String) :
    Except AErr AnalysisResult :=
  match validate_image env base64_content with
  | .error e => .error e
  | .ok (image_data, pil_image) =>
    if analysis_type = "web_search" then
      match process_web_detection env image_data with
      | .error e => .error e
      | .ok r => .ok (.web r)
    else if analysis_type = "classification" then
      match classify_image env base64_content with
      | .error e => .error e
      | .ok r => .ok (.classification r)
    else if analysis_type = "exif" then
      .ok (.exif (analyze_exif env pil_image))
    else
      .error (.unsupportedAnalysisType analysis_type)

/-- What the endpoint sends back: a 200 JSON body, or an HTTPException with
a status code and a detail string. -/
inductive HttpOutcome where
  | success (r : AnalysisResult)
  | failure (status : Nat) (detail : String)
deriving DecidableEq

/-- The `analyze_fraud` endpoint of `app.py`: run the analyzer; on success
return its result as JSON; on a `ValueError` answer 400 with `str(e)` as the
detail; on any other exception answer 500 with
`"An unexpected error occurred: " ++ str(e)`. -/
def analyze_fraud (env : Env) (source : String) (analysis_type : String) :
    HttpOutcome :=
  match analyze env source analysis_type with
  | .ok r => .success r
  | .error e =>
    let exc := e.toPyExc
    if exc.isValueError then .failure 400 exc.msg
    else .failure 500 ("An unexpected error occurred: " ++ exc.msg)

/-! ### Concrete test environments

Mocked library/service behaviors used to evaluate the theorems at concrete
inputs, in the sense of the spec's mocked-response scenarios. -/

/-- Everything local succeeds (a tiny valid image with no EXIF block); both
remote services are unreachable. -/
def envPlain : Env :=
  ⟨fun _ => .ok [5], fun _ => .ok ⟨none⟩, fun _ => .error "offline",
    fun _ => .error "offline", fun _ => .error "no exif"⟩

/-- The base64 decoder rejects the payload. -/
def envBadB64 : Env :=
  ⟨fun _ => .error "Incorrect padding", fun _ => .ok ⟨none⟩,
    fun _ => .error "offline", fun _ => .error "offline", fun _ => .error "no exif"⟩

/-- A mocked web-detection response with two full matches and one partial
match. -/
def webHitResponse : WebDetectionResponse :=
  ⟨[⟨"http://a.example/img1"⟩, ⟨"http://b.example/img2"⟩], [⟨"http://c.example/img3"⟩]⟩

/-- A valid image whose web-detection probe returns `webHitResponse`. -/
def envWebHit : Env :=
  ⟨fun _ => .ok [3], fun _ => .ok ⟨none⟩, fun _ => .ok webHitResponse,
    fun _ => .error "offline", fun _ => .error "no exif"⟩

/-- A valid image, but the web-detection service call fails. -/
def envWebDown : Env :=
  ⟨fun _ => .ok [3], fun _ => .ok ⟨none⟩, fun _ => .error "service unavailable",
    fun _ => .error "offline", fun _ => .error "no exif"⟩

/-- A decoded payload one byte over the size limit. -/
def bigBytes : ByteData := List.replicate 1500001 0

/-- The base64 decoder yields `bigBytes`, and the image parser would reject
the bytes — which the size check must preempt. -/
def envBig : Env :=
  ⟨fun _ => .ok bigBytes, fun _ => .error "cannot identify image file",
    fun _ => .error "offline", fun _ => .error "offline", fun _ => .error "no exif"⟩

/-- A valid image carrying an EXIF block that `piexif.load` cannot parse. -/
def envExifFail : Env :=
  ⟨fun _ => .ok [7], fun _ => .ok ⟨some [9]⟩, fun _ => .error "offline",
    fun _ => .error "offline", fun _ => .error "bad tiff header"⟩

/-- EXIF data with software `"Photoshop"` (bytes of that ASCII text under
tag 305) and differing capture/digitization timestamps (tags 36867/36868). -/
def exifPhotoshop : ExifData :=
  ⟨[(305, [80, 104, 111, 116, 111, 115, 104, 111, 112])],
    [(36867, [50, 48, 50, 48]), (36868, [50, 48, 50, 49])]⟩

/-- A valid image whose EXIF block loads as `exifPhotoshop`. -/
def envExifData : Env :=
  ⟨fun _ => .ok [7], fun _ => .ok ⟨some [1]⟩, fun _ => .error "offline",
    fun _ => .error "offline", fun _ => .ok exifPhotoshop⟩

/-! ### Helper lemmas -/

/-- `validate_image` reads only the base64 decoder and the image parser of
the environment: two environments agreeing on those agree on validation. -/
theorem validate_image_congr (env envB : Env) (s : String)
    (h1 : envB.b64decode = env.b64decode)
    (h2 : envB.imageOpenVerify = env.imageOpenVerify) :
    validate_image envB s = validate_image env s := by
  unfold validate_image
  rw [h1, h2]

/-- Every error `validate_image` returns comes from one of its three raise
sites: malformed base64, oversized payload, or undecodable image. -/
theorem validate_image_error_shape (env : Env) (s : String) (e : AErr)
    (h : validate_image env s = .error e) :
    (∃ m, e = .invalidPayload m) ∨ (∃ n, e = .payloadTooLarge n) ∨
      (∃ m, e = .invalidImageFormat m) := by
  unfold validate_image at h
  split at h
  · exact Or.inl ⟨_, by injection h with h; exact h.symm⟩
  · split at h
    · exact Or.inr (Or.inl ⟨_, by injection h with h; exact h.symm⟩)
    · split at h
      · exact Or.inr (Or.inr ⟨_, by injection h with h; exact h.symm⟩)
      · exact absurd h (by simp)

/-- When validation fails, `analyze` propagates exactly that error. -/
theorem analyze_of_validate_error (env : Env) (s t : String) (e : AErr)
    (h : validate_image env s = .error e) :
    analyze env s t = .error e := by
  unfold analyze
  rw [h]

/-- The success branch of `analyze_exif`, spelled out. -/
theorem analyze_exif_ok (env : Env) (pil_image : PILImage) (raw : ByteData)
    (exif_data : ExifData) (h1 : pil_image.exifBytes = some raw)
    (h2 : env.piexifLoad raw = .ok exif_data) :
    analyze_exif env pil_image =
      .result
        ⟨utf8DecodeIgnore (ifdGet exif_data.zeroth piexifImageIFD.Model),
          utf8DecodeIgnore (ifdGet exif_data.zeroth piexifImageIFD.Software),
          utf8DecodeIgnore (ifdGet exif_data.exifIFD piexifExifIFD.DateTimeOriginal),
          utf8DecodeIgnore (ifdGet exif_data.exifIFD piexifExifIFD.DateTimeDigitized),
          (if utf8DecodeIgnore (ifdGet exif_data.zeroth piexifImageIFD.Software) ≠ "" then
            ["Image edited with software: " ++
              utf8DecodeIgnore (ifdGet exif_data.zeroth piexifImageIFD.Software)]
          else []) ++
          (if utf8DecodeIgnore (ifdGet exif_data.exifIFD piexifExifIFD.DateTimeOriginal) ≠ "" ∧
              utf8DecodeIgnore (ifdGet exif_data.exifIFD piexifExifIFD.DateTimeDigitized) ≠ "" ∧
              utf8DecodeIgnore (ifdGet exif_data.exifIFD piexifExifIFD.DateTimeOriginal) ≠
                utf8DecodeIgnore (ifdGet exif_data.exifIFD piexifExifIFD.DateTimeDigitized) then
            ["Original date and digitized date do not match."]
          else [])⟩ := by
  unfold analyze_exif
  rw [h1]
  simp only [h2]

/-- The software warning can never collide with the timestamp warning. -/
theorem software_warning_ne_date_warning (s : String) :
    "Image edited with software: " ++ s ≠
      "Original date and digitized date do not match." := by
  intro h
  have h2 : ("Image edited with software: " ++ s).data =
      "Original date and digitized date do not match.".data := by rw [h]
  rw [String.data_append] at h2
  have hpre : "Image edited with software: ".data <+:
      "Original date and digitized date do not match.".data := ⟨s.data, h2⟩
  exact absurd hpre (by decide)

/-- The oversized test payload is one byte over the limit. -/
theorem bigBytes_length : bigBytes.length = 1500001 := by
  unfold bigBytes
  rw [List.length_replicate]

/-! ### The claims -/

/-- C1: for every web-detection service response, the web-match probe has
`is_fraud = true` iff the full-match list is non-empty, its
`matching_images_count` equals the full-match list's length (0 when empty),
and a response with partial matches but no full matches yields
`is_fraud = false` and `matching_images_count = 0`. -/
theorem C1_web_match_probe (env : Env) (image_data : ByteData)
    (resp : WebDetectionResponse) (h : env.webDetection image_data = .ok resp) :
    ∃ r, process_web_detection env image_data = .ok r ∧
      (r.is_fraud = true ↔ resp.full_matching_images ≠ []) ∧
      r.matching_images_count = resp.full_matching_images.length ∧
      (resp.full_matching_images = [] →
        r.is_fraud = false ∧ r.matching_images_count = 0) := by
  unfold process_web_detection
  rw [h]
  refine ⟨_, rfl, ?_, ?_, ?_⟩
  · cases resp.full_matching_images <;> simp
  · cases resp.full_matching_images <;> simp
  · intro hfull
    rw [hfull]
    exact ⟨rfl, rfl⟩

/-- C1 witness: the mocked response with two full matches and one partial
match, evaluated through the probe. -/
theorem C1_web_match_probe_witness :
    ∃ r, process_web_detection envWebHit [3] = .ok r ∧
      (r.is_fraud = true ↔ webHitResponse.full_matching_images ≠ []) ∧
      r.matching_images_count = webHitResponse.full_matching_images.length ∧
      (webHitResponse.full_matching_images = [] →
        r.is_fraud = false ∧ r.matching_images_count = 0) :=
  C1_web_match_probe envWebHit [3] webHitResponse rfl

/-- C2 fails on the code: `process_web_detection` re-raises remote failures
as `ValueError`, and the endpoint maps every `ValueError` to HTTP 400, so a
web-detection failure surfaces as a client error, not a server error. This
theorem evaluates the endpoint at such a failing request. -/
theorem C2_remote_failure_maps_to_client_error :
    analyze_fraud envWebDown "QUJD" "web_search" =
      .failure 400 "Web detection failed: service unavailable" := by
  decide

/-- C3: for every image that passes validation, `analyze` with directive
`exif` returns the metadata result in-band and never an error; an internal
failure of `piexif.load` becomes the `{error: message}` mapping. -/
theorem C3_exif_never_raises (env : Env) (s : String) (image_data : ByteData)
    (pil_image : PILImage)
    (h : validate_image env s = .ok (image_data, pil_image)) :
    analyze env s "exif" = .ok (.exif (analyze_exif env pil_image)) ∧
    ∀ raw e, pil_image.exifBytes = some raw → env.piexifLoad raw = .error e →
      analyze_exif env pil_image = .errorResult ("EXIF analysis failed: " ++ e) := by
  constructor
  · unfold analyze
    rw [h]
    rfl
  · intro raw e hraw herr
    unfold analyze_exif
    rw [hraw]
    simp only [herr]

/-- C3 witness: a valid image whose EXIF block fails to load; `analyze`
still succeeds and embeds the error in-band. -/
theorem C3_exif_never_raises_witness :
    analyze envExifFail "AA==" "exif" =
      .ok (.exif (analyze_exif envExifFail ⟨some [9]⟩)) ∧
    ∀ raw e, PILImage.exifBytes ⟨some [9]⟩ = some raw →
      envExifFail.piexifLoad raw = .error e →
      analyze_exif envExifFail ⟨some [9]⟩ =
        .errorResult ("EXIF analysis failed: " ++ e) :=
  C3_exif_never_raises envExifFail "AA==" [7] ⟨some [9]⟩ rfl

/-- C4: whenever the decoded payload exceeds 1,500,000 bytes, validation
fails with the size error, and it does so for every image parser whatsoever
— the size check precedes image-format parsing. -/
theorem C4_oversized_payload (env : Env) (s : String) (image_data : ByteData)
    (hdec : env.b64decode (cleanedBase64 s) = .ok image_data)
    (hsize : image_data.length > VisionConfig.MAX_IMAGE_SIZE) :
    validate_image env s = .error (.payloadTooLarge image_data.length) ∧
    ∀ envB : Env, envB.b64decode = env.b64decode →
      validate_image envB s = .error (.payloadTooLarge image_data.length) := by
  constructor
  · unfold validate_image
    simp only [hdec]
    rw [if_pos hsize]
  · intro envB hb
    unfold validate_image
    rw [hb]
    simp only [hdec]
    rw [if_pos hsize]

/-- C4 witness: a 1,500,001-byte decoded payload that the image parser would
reject is refused by the size check alone. -/
theorem C4_oversized_payload_witness :
    (validate_image envBig "AAAA" = .error (.payloadTooLarge bigBytes.length) ∧
      ∀ envB : Env, envB.b64decode = envBig.b64decode →
        validate_image envB "AAAA" = .error (.payloadTooLarge bigBytes.length)) ∧
    bigBytes.length > VisionConfig.MAX_IMAGE_SIZE :=
  ⟨C4_oversized_payload envBig "AAAA" bigBytes rfl
      (by rw [bigBytes_length]; decide),
    by rw [bigBytes_length]; decide⟩

/-- C5 counterexample: the claim quantifies over every input, but an input
that fails validation makes `analyze` raise the validation error, not
`UnsupportedAnalysisType`: with malformed base64 and the unrecognized
directive `metadata`, the result is the `InvalidPayload` error. -/
theorem C5_counterexample_invalid_input :
    ¬ ∀ (env : Env) (s t : String),
        t ≠ "web_search" → t ≠ "classification" → t ≠ "exif" →
        analyze env s t = .error (.unsupportedAnalysisType t) := by
  intro hclaim
  have h := hclaim envBadB64 "!!!" "metadata" (by decide) (by decide) (by decide)
  rw [show analyze envBadB64 "!!!" "metadata" =
      .error (.invalidPayload "Incorrect padding") from rfl] at h
  injection h with h2
  exact AErr.noConfusion h2

/-- C5 (amended): for every input that passes validation, an unrecognized
directive makes `analyze` fail with `UnsupportedAnalysisType`; and for every
input, an unrecognized directive never invokes any strategy — the outcome is
independent of the web-detection, classification and EXIF components of the
environment. -/
theorem C5_unsupported_directive (env : Env) (s t : String)
    (ht1 : t ≠ "web_search") (ht2 : t ≠ "classification") (ht3 : t ≠ "exif") :
    (∀ image_data pil_image,
      validate_image env s = .ok (image_data, pil_image) →
      analyze env s t = .error (.unsupportedAnalysisType t)) ∧
    ∀ envB : Env, envB.b64decode = env.b64decode →
      envB.imageOpenVerify = env.imageOpenVerify →
      analyze envB s t = analyze env s t := by
  constructor
  · intro image_data pil_image h
    unfold analyze
    simp only [h]
    rw [if_neg ht1, if_neg ht2, if_neg ht3]
  · intro envB hb hv
    cases hval : validate_image env s with
    | error e =>
      rw [analyze_of_validate_error env s t e hval,
        analyze_of_validate_error envB s t e
          (by rw [validate_image_congr env envB s hb hv]; exact hval)]
    | ok p =>
      obtain ⟨image_data, pil_image⟩ := p
      have hB : validate_image envB s = .ok (image_data, pil_image) := by
        rw [validate_image_congr env envB s hb hv]
        exact hval
      unfold analyze
      simp only [hval, hB]
      rw [if_neg ht1, if_neg ht2, if_neg ht3, if_neg ht1, if_neg ht2, if_neg ht3]

/-- C5 witness: a validated image with the unrecognized directive `bogus`
is refused with the directive echoed in the error. -/
theorem C5_unsupported_directive_witness :
    analyze envPlain "AA==" "bogus" = .error (.unsupportedAnalysisType "bogus") :=
  (C5_unsupported_directive envPlain "AA==" "bogus" (by decide) (by decide)
      (by decide)).1 [5] ⟨none⟩ rfl

/-- C6: for every valid image with no embedded EXIF block, metadata
inspection returns exactly the all-empty five-field result with the single
no-EXIF warning, and never the error shape. -/
theorem C6_no_exif_block (env : Env) (pil_image : PILImage)
    (h : pil_image.exifBytes = none) :
    analyze_exif env pil_image =
      .result ⟨"", "", "", "", ["No EXIF data found in image"]⟩ ∧
    ∀ m, analyze_exif env pil_image ≠ .errorResult m := by
  have heq : analyze_exif env pil_image =
      .result ⟨"", "", "", "", ["No EXIF data found in image"]⟩ := by
    unfold analyze_exif
    rw [h]
  refine ⟨heq, ?_⟩
  intro m hm
  rw [heq] at hm
  exact ExifOutcome.noConfusion hm

/-- C6 witness: a concrete image handle without an EXIF block. -/
theorem C6_no_exif_block_witness :
    analyze_exif envPlain ⟨none⟩ =
      .result ⟨"", "", "", "", ["No EXIF data found in image"]⟩ ∧
    ∀ m, analyze_exif envPlain ⟨none⟩ ≠ .errorResult m :=
  C6_no_exif_block envPlain ⟨none⟩ rfl

/-- An if-then-else between a singleton and the empty list holds at most one
element. -/
theorem if_list_length_le_one (c : Prop) [Decidable c] (x : String) :
    (if c then [x] else []).length ≤ 1 := by
  split <;> simp

/-- C7: for every image with an EXIF block, the warnings are derived
deterministically: a non-empty software tag puts the warning naming that
software in the list; both timestamps present and different puts the
mismatch warning in the list; equal timestamps exclude the mismatch
warning; and never more than two warnings appear. -/
theorem C7_exif_warnings (env : Env) (pil_image : PILImage) (raw : ByteData)
    (exif_data : ExifData) (h1 : pil_image.exifBytes = some raw)
    (h2 : env.piexifLoad raw = .ok exif_data) :
    ∃ r, analyze_exif env pil_image = .result r ∧
      (r.software ≠ "" →
        ("Image edited with software: " ++ r.software) ∈ r.warnings) ∧
      (r.datetime_original ≠ "" → r.datetime_digitized ≠ "" →
        r.datetime_original ≠ r.datetime_digitized →
        "Original date and digitized date do not match." ∈ r.warnings) ∧
      (r.datetime_original = r.datetime_digitized →
        "Original date and digitized date do not match." ∉ r.warnings) ∧
      r.warnings.length ≤ 2 := by
  refine ⟨_, analyze_exif_ok env pil_image raw exif_data h1 h2, ?_, ?_, ?_, ?_⟩ <;>
    dsimp only
  · intro hne
    simp [hne]
  · intro ho hd hne
    simp [ho, hd, hne]
  · intro heq hmem
    rw [List.mem_append] at hmem
    rcases hmem with hm | hm
    · by_cases hsw :
        utf8DecodeIgnore (ifdGet exif_data.zeroth piexifImageIFD.Software) ≠ ""
      · rw [if_pos hsw] at hm
        rw [List.mem_singleton] at hm
        exact software_warning_ne_date_warning _ hm.symm
      · rw [if_neg hsw] at hm
        exact absurd hm (List.not_mem_nil _)
    · have hcond : ¬ (utf8DecodeIgnore
          (ifdGet exif_data.exifIFD piexifExifIFD.DateTimeOriginal) ≠ "" ∧
          utf8DecodeIgnore (ifdGet exif_data.exifIFD piexifExifIFD.DateTimeDigitized) ≠ "" ∧
          utf8DecodeIgnore (ifdGet exif_data.exifIFD piexifExifIFD.DateTimeOriginal) ≠
            utf8DecodeIgnore (ifdGet exif_data.exifIFD piexifExifIFD.DateTimeDigitized)) :=
        fun hc => hc.2.2 heq
      rw [if_neg hcond] at hm
      exact absurd hm (List.not_mem_nil _)
  · rw [List.length_append]
    exact Nat.add_le_add (if_list_length_le_one _ _) (if_list_length_le_one _ _)

/-- C7 witness: EXIF data with software `Photoshop` and differing
timestamps, evaluated through the inspector. -/
theorem C7_exif_warnings_witness :
    ∃ r, analyze_exif envExifData ⟨some [1]⟩ = .result r ∧
      (r.software ≠ "" →
        ("Image edited with software: " ++ r.software) ∈ r.warnings) ∧
      (r.datetime_original ≠ "" → r.datetime_digitized ≠ "" →
        r.datetime_original ≠ r.datetime_digitized →
        "Original date and digitized date do not match." ∈ r.warnings) ∧
      (r.datetime_original = r.datetime_digitized →
        "Original date and digitized date do not match." ∉ r.warnings) ∧
      r.warnings.length ≤ 2 :=
  C7_exif_warnings envExifData ⟨some [1]⟩ [1] exifPhotoshop rfl rfl

/-- C8: whenever the cleaned text fails to base64-decode, validation fails
with the invalid-payload error carrying the decoder's message. -/
theorem C8_malformed_base64 (env : Env) (s m : String)
    (h : env.b64decode (cleanedBase64 s) = .error m) :
    validate_image env s = .error (.invalidPayload m) := by
  unfold validate_image
  simp only [h]

/-- C8 witness: a concrete payload the decoder rejects. -/
theorem C8_malformed_base64_witness :
    validate_image envBadB64 "####" = .error (.invalidPayload "Incorrect padding") :=
  C8_malformed_base64 envBadB64 "####" "Incorrect padding" rfl

/-- C9: validation precedes dispatch: a validation failure is returned as
such for every directive (recognized or not), it is never the
unsupported-directive error, the failure consults no strategy (the outcome
is the same in any environment agreeing on the validator's two
dependencies), and the unsupported-directive error can only arise after
validation succeeded. -/
theorem C9_validate_before_dispatch (env : Env) (s t : String) :
    (∀ e, validate_image env s = .error e →
      analyze env s t = .error e ∧
      (∀ u, e ≠ AErr.unsupportedAnalysisType u) ∧
      ∀ envB : Env, envB.b64decode = env.b64decode →
        envB.imageOpenVerify = env.imageOpenVerify →
        analyze envB s t = .error e) ∧
    ∀ u, analyze env s t = .error (.unsupportedAnalysisType u) →
      ∃ p, validate_image env s = .ok p := by
  constructor
  · intro e he
    refine ⟨analyze_of_validate_error env s t e he, ?_, ?_⟩
    · intro u hu
      rcases validate_image_error_shape env s e he with ⟨m, hm⟩ | ⟨m, hm⟩ | ⟨m, hm⟩ <;>
        rw [hm] at hu <;> exact AErr.noConfusion hu
    · intro envB hb hv
      exact analyze_of_validate_error envB s t e
        (by rw [validate_image_congr env envB s hb hv]; exact he)
  · intro u hu
    cases hval : validate_image env s with
    | ok p => exact ⟨p, rfl⟩
    | error e =>
      rw [analyze_of_validate_error env s t e hval] at hu
      injection hu with h2
      rcases validate_image_error_shape env s e hval with ⟨m, hm⟩ | ⟨m, hm⟩ | ⟨m, hm⟩ <;>
        rw [hm] at h2 <;> exact AErr.noConfusion h2

/-- C9 witness: with malformed base64 and an unrecognized directive, the
validation error wins. -/
theorem C9_validate_before_dispatch_witness :
    analyze envBadB64 "%%" "mystery" = .error (.invalidPayload "Incorrect padding") :=
  ((C9_validate_before_dispatch envBadB64 "%%" "mystery").1
      (.invalidPayload "Incorrect padding") rfl).1

/-- C10: metadata inspection is total and its result takes exactly one of
two shapes: the five-field result (with the single no-EXIF warning when the
block is absent, and at most two warnings when it is present), or the
in-band error value. -/
theorem C10_exif_inspection_total_shape (env : Env) (pil_image : PILImage) :
    (∃ r, analyze_exif env pil_image = .result r ∧
      (pil_image.exifBytes = none →
        r = ⟨"", "", "", "", ["No EXIF data found in image"]⟩) ∧
      (pil_image.exifBytes ≠ none → r.warnings.length ≤ 2)) ∨
    ∃ m, analyze_exif env pil_image = .errorResult m := by
  cases hb : pil_image.exifBytes with
  | none =>
    left
    refine ⟨⟨"", "", "", "", ["No EXIF data found in image"]⟩, ?_, fun _ => rfl, ?_⟩
    · unfold analyze_exif
      rw [hb]
    · intro hne
      exact absurd rfl hne
  | some raw =>
    cases hld : env.piexifLoad raw with
    | error m =>
      right
      refine ⟨"EXIF analysis failed: " ++ m, ?_⟩
      unfold analyze_exif
      rw [hb]
      simp only [hld]
    | ok d =>
      left
      refine ⟨_, analyze_exif_ok env pil_image raw d hb hld, ?_, ?_⟩
      · intro hnone
        exact Option.noConfusion hnone
      · intro _
        dsimp only
        rw [List.length_append]
        exact Nat.add_le_add (if_list_length_le_one _ _) (if_list_length_le_one _ _)

/-- C10 witness: the shape invariant evaluated at an image whose EXIF block
fails to load. -/
theorem C10_exif_inspection_total_shape_witness :
    (∃ r, analyze_exif envExifFail ⟨some [9]⟩ = .result r ∧
      (PILImage.exifBytes ⟨some [9]⟩ = none →
        r = ⟨"", "", "", "", ["No EXIF data found in image"]⟩) ∧
      (PILImage.exifBytes ⟨some [9]⟩ ≠ none → r.warnings.length ≤ 2)) ∨
    ∃ m, analyze_exif envExifFail ⟨some [9]⟩ = .errorResult m :=
  C10_exif_inspection_total_shape envExifFail ⟨some [9]⟩

end ImageFraud
